import Mathlib

/-!
# Shallow embedding of the sarracen interpolation core

This file embeds, over the real numbers, the four SPH grid-projection
routines of `sarracen/interpolate.py` (`interpolate_2d` / `_fast_2d`,
`interpolate_2d_cross` / `_fast_2d_cross`, `interpolate_3d` / `_fast_3d`,
`interpolate_3d_cross` / `_fast_3d_cross`) together with the kernel
machinery of `sarracen/kernels/base_kernel.py` (`BaseKernel._int_func`,
`get_column_kernel`) and the concrete cubic-spline kernel of
`sarracen/kernels/cubic_spline.py`.

Modelling conventions:
* floating-point values become real numbers; `np.pi` becomes `Real.pi`;
* a particle set is a family of parallel arrays `Fin n → ℝ`;
* the output image is the function sending a pixel index pair to the sum,
  over all particles, of that particle's contribution to the pixel — this
  is exactly the value the source's slice-accumulation loop leaves in each
  image cell, since every loop iteration only adds the particle's kernel
  values into the slice of the image covered by that particle's index box;
* the numpy boolean-mask filters (`filter_det`, `filter_distance`) become
  per-particle conditionals whose rejected branch contributes `0`: masking
  an array and looping over the surviving entries produces precisely the
  sum over unmasked particles;
* a `ValueError` raise in the entry-point wrappers becomes the `error`
  branch of an `Except`, so a validation failure produces no image at all;
* `np.interp` carries its documented precondition (same-length abscissa
  and ordinate arrays, nonempty abscissas) as an `Option`: `none` models
  the `ValueError` it raises when the precondition fails.
-/

namespace Sarracen

noncomputable section

open scoped Classical

/-- `np.rint`: round to the nearest integer, ties to even. -/
def rint (x : ℝ) : ℤ :=
  if Int.fract x < 1/2 then ⌊x⌋
  else if 1/2 < Int.fract x then ⌊x⌋ + 1
  else if 2 ∣ ⌊x⌋ then ⌊x⌋ else ⌊x⌋ + 1

/-- `ndarray.clip(a_min=0, a_max=hi)` on an integral value, as numpy
computes it: `minimum(a_max, maximum(a, a_min))`. -/
def clipIdx (hi v : ℤ) : ℤ := min hi (max 0 v)

/-- `np.clip` on reals with bounds `lo`/`hi`, as numpy computes it. -/
def clipReal (lo hi v : ℝ) : ℝ := min hi (max lo v)

/-- `np.isclose(a, b)` with the default tolerances
`rtol = 1e-05`, `atol = 1e-08`: `|a - b| <= atol + rtol * |b|`. -/
def isclose (a b : ℝ) : Prop := |a - b| ≤ 1/10^8 + (1/10^5) * |b|

/-- `np.linspace(a, b, num)`: `num` equally spaced points from `a` to `b`
inclusive (a single point `a` when `num = 1`, empty when `num = 0`). -/
def linspace (a b : ℝ) (num : ℕ) : List ℝ :=
  if num = 1 then [a]
  else (List.range num).map (fun k : ℕ => a + (b - a) * (k : ℝ) / ((num : ℝ) - 1))

/-- Piecewise-linear lookup in a list of `(abscissa, ordinate)` pairs with
clamping at both ends — the interpolation rule of `np.interp` on an
increasing abscissa sequence. -/
def interpSeg (x : ℝ) : List (ℝ × ℝ) → ℝ
  | [] => 0
  | [(_, f0)] => f0
  | (x0, f0) :: (x1, f1) :: rest =>
      if x < x0 then f0
      else if x ≤ x1 then f0 + (f1 - f0) * (x - x0) / (x1 - x0)
      else interpSeg x ((x1, f1) :: rest)

/-- `np.interp(x, xp, fp)`. The function raises a `ValueError` when `xp`
is empty or when `xp` and `fp` differ in length; `none` models that
failure, `some` the interpolated value. -/
def npInterp (x : ℝ) (xp fp : List ℝ) : Option ℝ :=
  if xp.length = 0 ∨ xp.length ≠ fp.length then none
  else some (interpSeg x (xp.zip fp))

/-- `CubicSplineKernel.w(q, ndim)` from `cubic_spline.py`: the
dimension-normalized cubic-spline weight.  The Python boolean factors
`(0.0 <= q)`, `(q < 1.0)`, … multiply as `0`/`1` indicators. -/
def cubicW (q : ℝ) (ndim : ℕ) : ℝ :=
  (if ndim = 1 then 2/3 else if ndim = 2 then 10 / (7 * Real.pi) else 1 / Real.pi) *
    ((1 - 1.5 * q * q + 0.75 * q * q * q) *
        (if 0 ≤ q then (1:ℝ) else 0) * (if q < 1 then (1:ℝ) else 0)
      + 0.25 * (2 - q) * (2 - q) * (2 - q) *
        (if 1 ≤ q then (1:ℝ) else 0) * (if q < 2 then (1:ℝ) else 0))

/-- `BaseKernel._int_func(radius, samples, wfunc)` from `base_kernel.py`,
entry by entry: entry `i < samples` is twice the 100-point (99
sub-interval) trapezoidal accumulation `coldens` of
`wfunc(sqrt(q_xy2 + q_z*q_z), 3)` over `q_z = j*dz`,
`dz = sqrt(radius^2 - q_xy2)/99`, at `q_xy2 = i*(radius^2/samples)`;
entry `samples` is set to `0` (all further indices are out of range and
read as `0` here). -/
def int_func (radius : ℝ) (samples : ℕ) (wfunc : ℝ → ℕ → ℝ) (i : ℕ) : ℝ :=
  if i < samples then
    let r2 := radius * radius
    let q_xy2 := (i : ℝ) * (r2 / (samples : ℝ))
    let bounds := Real.sqrt (r2 - q_xy2)
    let dz := bounds / 99
    2 * ∑ j ∈ Finset.range 100,
      (let q_z := (j : ℝ) * dz
       let y := wfunc (Real.sqrt (q_xy2 + q_z * q_z)) 3
       if j = 0 ∨ j = 99 then 0.5 * y * dz else y * dz)
  else 0

/-- `BaseKernel.get_column_kernel(samples)`: the column-kernel table,
an array of `samples + 1` entries computed by `_int_func`. -/
def columnTableList (radius : ℝ) (samples : ℕ) (wfunc : ℝ → ℕ → ℝ) : List ℝ :=
  List.ofFn (fun i : Fin (samples + 1) => int_func radius samples wfunc (i : ℕ))

/-- Modelled from the spec's words (refinement side of the column-table
claim): the composite trapezoidal approximation of `∫_0^b f` with exactly
100 evaluation points over 99 equal sub-intervals — endpoints weighted by
`1/2`, all others by `1`, each scaled by the sub-interval width. -/
def specTrap100 (f : ℝ → ℝ) (b : ℝ) : ℝ :=
  ∑ j ∈ Finset.range 100,
    (if j = 0 ∨ j = 99 then (1:ℝ)/2 else 1) * f ((j : ℝ) * (b / 99)) * (b / 99)

/-- The two kinds of `ValueError` raised by the interpolation entry
points: a non-positive pixel width/count (carrying the offending field
name) and a zero-length cross-section line. -/
inductive InterpError where
  | invalidParameter (field : String)
  | degenerateGeometry
  deriving DecidableEq

/-- The result is an `InvalidParameter` failure (for some field). -/
def raisesInvalidParameter {α : Type} (r : Except InterpError α) : Prop :=
  match r with
  | .error (.invalidParameter _) => True
  | _ => False

/-- The per-particle coefficient `term = target * mass / (rho * h ** 2)`
shared by `_fast_2d`, `_fast_2d_cross` and `_fast_3d`. -/
def term2d (target mass rho h : ℝ) : ℝ := target * mass / (rho * h ^ 2)

/-- The per-particle coefficient `term = target * mass / (rho * h ** 3)`
of `_fast_3d_cross`. -/
def term3dCross (target mass rho h : ℝ) : ℝ := target * mass / (rho * h ^ 3)

/-- The cross-section line slope of `_fast_2d_cross`: initialized to `0`
and overwritten with `(y2 - y1) / (x2 - x1)` only when `x2 - x1 ≠ 0`. -/
def lineGradient (x1 y1 x2 y2 : ℝ) : ℝ :=
  if x2 - x1 = 0 then 0 else (y2 - y1) / (x2 - x1)

/-- Membership of pixel index `ipix` in the half-open index range
`[rint((c - k_rad*h - cmin)/pw).clip(0, pc),
  rint((c + k_rad*h - cmin)/pw).clip(0, pc))` that `_fast_2d`,
`_fast_3d` and `_fast_3d_cross` compute along each axis. -/
def inPixRange (k_rad h c cmin pw : ℝ) (pc ipix : ℤ) : Prop :=
  clipIdx pc (rint ((c - k_rad * h - cmin) / pw)) ≤ ipix ∧
    ipix < clipIdx pc (rint ((c + k_rad * h - cmin) / pw))

/-- One particle's contribution to pixel `(jpix, ipix)` in `_fast_2d`:
inside the particle's index box the kernel weight
`wfunc(sqrt(q2), 2)` times `term`, `0` outside. -/
def fast_2d_contrib (target x_data y_data : ℝ) (wfunc : ℝ → ℕ → ℝ)
    (k_rad mass rho h xmin ymin pixwidthx pixwidthy : ℝ)
    (pixcountx pixcounty jpix ipix : ℤ) : ℝ :=
  if inPixRange k_rad h x_data xmin pixwidthx pixcountx ipix ∧
      inPixRange k_rad h y_data ymin pixwidthy pixcounty jpix then
    let dx2i := (xmin + ((ipix : ℝ) + 0.5) * pixwidthx - x_data) ^ 2 * (1 / h ^ 2)
    let ypix := ymin + ((jpix : ℝ) + 0.5) * pixwidthy
    let dy := ypix - y_data
    let dy2 := dy * dy * (1 / h ^ 2)
    let q2 := dx2i + dy2
    wfunc (Real.sqrt q2) 2 * term2d target mass rho h
  else 0

/-- `_fast_2d`: the output image, pixel by pixel, as the sum of all
particles' contributions. -/
def fast_2d (n : ℕ) (target x_data y_data : Fin n → ℝ) (wfunc : ℝ → ℕ → ℝ)
    (k_rad : ℝ) (mass rho h : Fin n → ℝ) (xmin ymin pixwidthx pixwidthy : ℝ)
    (pixcountx pixcounty jpix ipix : ℤ) : ℝ :=
  ∑ i, fast_2d_contrib (target i) (x_data i) (y_data i) wfunc k_rad
    (mass i) (rho i) (h i) xmin ymin pixwidthx pixwidthy pixcountx pixcounty jpix ipix

/-- One particle's contribution to pixel `ipix` in `_fast_2d_cross`.
A particle whose discriminant `det = bb^2 - 4*aa*cc` is negative is
masked out by `filter_det` and contributes `0`; a surviving particle
contributes the 2D kernel weight at the pixel's point on the line, times
`term`, on its clipped pixel range. -/
def fast_2d_cross_contrib (target x_data y_data : ℝ) (wfunc : ℝ → ℕ → ℝ)
    (k_rad mass rho h x1 y1 x2 y2 : ℝ) (pixcount ipix : ℤ) : ℝ :=
  let gradient := lineGradient x1 y1 x2 y2
  let yint := y2 - gradient * x2
  let xlength := Real.sqrt ((x2 - x1) ^ 2 + (y2 - y1) ^ 2)
  let pixwidth := xlength / (pixcount : ℝ)
  let xpixwidth := (x2 - x1) / (pixcount : ℝ)
  let aa := 1 + gradient ^ 2
  let bb := 2 * gradient * (yint - y_data) - 2 * x_data
  let cc := x_data ^ 2 + y_data ^ 2 - 2 * yint * y_data + yint ^ 2 - (k_rad * h) ^ 2
  let det := bb ^ 2 - 4 * aa * cc
  if det < 0 then 0
  else
    let xstart := clipReal x1 x2 ((-bb - Real.sqrt det) / (2 * aa))
    let xend := clipReal x1 x2 ((-bb + Real.sqrt det) / (2 * aa))
    let rstart := Real.sqrt ((xstart - x1) ^ 2 + (gradient * xstart + yint - y1) ^ 2)
    let rend := Real.sqrt ((xend - x1) ^ 2 + (gradient * xend + yint - y1) ^ 2)
    let ipixmin := clipIdx pixcount (rint (rstart / pixwidth))
    let ipixmax := clipIdx pixcount (rint (rend / pixwidth))
    if ipixmin ≤ ipix ∧ ipix < ipixmax then
      let xpix := x1 + ((ipix : ℝ) + 0.5) * xpixwidth
      let ypix := gradient * xpix + yint
      let dy := ypix - y_data
      let dx := xpix - x_data
      let q2 := (dx * dx + dy * dy) * (1 / (h * h))
      wfunc (Real.sqrt q2) 2 * term2d target mass rho h
    else 0

/-- `_fast_2d_cross`: the 1D output, pixel by pixel, as the sum of all
particles' contributions. -/
def fast_2d_cross (n : ℕ) (target x_data y_data : Fin n → ℝ) (wfunc : ℝ → ℕ → ℝ)
    (k_rad : ℝ) (mass rho h : Fin n → ℝ) (x1 y1 x2 y2 : ℝ)
    (pixcount ipix : ℤ) : ℝ :=
  ∑ i, fast_2d_cross_contrib (target i) (x_data i) (y_data i) wfunc k_rad
    (mass i) (rho i) (h i) x1 y1 x2 y2 pixcount ipix

/-- The per-pixel column-kernel lookup performed by `_fast_3d`:
`np.interp(q, np.linspace(0, k_rad, int_samples), wfuncint)` where
`wfuncint = get_column_kernel(int_samples)`. -/
def fast_3d_pixelWeight (wfunc : ℝ → ℕ → ℝ) (int_samples : ℕ) (k_rad q : ℝ) : Option ℝ :=
  npInterp q (linspace 0 k_rad int_samples) (columnTableList k_rad int_samples wfunc)

/-- One particle's contribution to pixel `(jpix, ipix)` in `_fast_3d`:
the column-kernel lookup at `sqrt(q2)` times `term` inside the index box.
The lookup (with its length precondition) runs for the particle whether
or not the pixel lies in the box, as `np.interp` validates its table
arguments on every call. -/
def fast_3d_contrib (target x_data y_data : ℝ) (wfunc : ℝ → ℕ → ℝ) (int_samples : ℕ)
    (k_rad mass rho h xmin ymin pixwidthx pixwidthy : ℝ)
    (pixcountx pixcounty jpix ipix : ℤ) : Option ℝ :=
  if inPixRange k_rad h x_data xmin pixwidthx pixcountx ipix ∧
      inPixRange k_rad h y_data ymin pixwidthy pixcounty jpix then
    let dx2i := (xmin + ((ipix : ℝ) + 0.5) * pixwidthx - x_data) ^ 2 * (1 / h ^ 2)
    let ypix := ymin + ((jpix : ℝ) + 0.5) * pixwidthy
    let dy := ypix - y_data
    let dy2 := dy * dy * (1 / h ^ 2)
    let q2 := dx2i + dy2
    (fast_3d_pixelWeight wfunc int_samples k_rad (Real.sqrt q2)).map
      (fun wab => wab * term2d target mass rho h)
  else
    (fast_3d_pixelWeight wfunc int_samples k_rad 0).map (fun _ => 0)

/-- `_fast_3d`: the output image, pixel by pixel.  The pixel value is the
sum of all particles' contributions when every per-particle lookup
succeeds, and the failure (`none`) of any particle's `np.interp` call
aborts the whole computation. -/
def fast_3d (n : ℕ) (target x_data y_data : Fin n → ℝ) (wfunc : ℝ → ℕ → ℝ)
    (int_samples : ℕ) (k_rad : ℝ) (mass rho h : Fin n → ℝ)
    (xmin ymin pixwidthx pixwidthy : ℝ)
    (pixcountx pixcounty jpix ipix : ℤ) : Option ℝ :=
  if ∀ i : Fin n, fast_3d_contrib (target i) (x_data i) (y_data i) wfunc int_samples
      k_rad (mass i) (rho i) (h i) xmin ymin pixwidthx pixwidthy
      pixcountx pixcounty jpix ipix ≠ none then
    some (∑ i, (fast_3d_contrib (target i) (x_data i) (y_data i) wfunc int_samples
      k_rad (mass i) (rho i) (h i) xmin ymin pixwidthx pixwidthy
      pixcountx pixcounty jpix ipix).getD 0)
  else none

/-- One particle's contribution to pixel `(jpix, ipix)` in
`_fast_3d_cross`: particles with `|zslice - z| >= k_rad * h` are masked
out by `filter_distance`; a surviving particle contributes
`term * wfunc(sqrt(q2), 3)` inside its index box, where `q2` adds the
normalized squared slice distance `dz^2 / h^2` to the planar part. -/
def fast_3d_cross_contrib (target x_data y_data z_data : ℝ) (wfunc : ℝ → ℕ → ℝ)
    (zslice k_rad mass rho h pixwidthx pixwidthy xmin ymin : ℝ)
    (pixcountx pixcounty jpix ipix : ℤ) : ℝ :=
  let dz := zslice - z_data
  if |dz| < k_rad * h then
    if inPixRange k_rad h x_data xmin pixwidthx pixcountx ipix ∧
        inPixRange k_rad h y_data ymin pixwidthy pixcounty jpix then
      let dx2i := (xmin + ((ipix : ℝ) + 0.5) * pixwidthx - x_data) ^ 2 * (1 / h ^ 2)
        + dz ^ 2 * (1 / h ^ 2)
      let ypix := ymin + ((jpix : ℝ) + 0.5) * pixwidthy
      let dy := ypix - y_data
      let dy2 := dy * dy * (1 / h ^ 2)
      let q2 := dx2i + dy2
      term3dCross target mass rho h * wfunc (Real.sqrt q2) 3
    else 0
  else 0

/-- `_fast_3d_cross`: the output image, pixel by pixel, as the sum of all
particles' contributions. -/
def fast_3d_cross (n : ℕ) (target x_data y_data z_data : Fin n → ℝ)
    (wfunc : ℝ → ℕ → ℝ) (zslice k_rad : ℝ) (mass rho h : Fin n → ℝ)
    (pixwidthx pixwidthy xmin ymin : ℝ)
    (pixcountx pixcounty jpix ipix : ℤ) : ℝ :=
  ∑ i, fast_3d_cross_contrib (target i) (x_data i) (y_data i) (z_data i) wfunc
    zslice k_rad (mass i) (rho i) (h i) pixwidthx pixwidthy xmin ymin
    pixcountx pixcounty jpix ipix

/-- `interpolate_2d`: validate the grid parameters in source order, then
hand off to `_fast_2d`.  An error means no image is produced. -/
def interpolate_2d (n : ℕ) (target x_data y_data : Fin n → ℝ) (wfunc : ℝ → ℕ → ℝ)
    (k_rad : ℝ) (mass rho h : Fin n → ℝ)
    (pixwidthx pixwidthy xmin ymin : ℝ) (pixcountx pixcounty : ℤ) :
    Except InterpError (ℤ → ℤ → ℝ) :=
  if pixwidthx ≤ 0 then .error (.invalidParameter "pixwidthx")
  else if pixwidthy ≤ 0 then .error (.invalidParameter "pixwidthy")
  else if pixcountx ≤ 0 then .error (.invalidParameter "pixcountx")
  else if pixcounty ≤ 0 then .error (.invalidParameter "pixcounty")
  else .ok (fun jpix ipix => fast_2d n target x_data y_data wfunc k_rad mass rho h
    xmin ymin pixwidthx pixwidthy pixcountx pixcounty jpix ipix)

/-- `interpolate_2d_cross`: reject an (approximately) zero-length line,
then a non-positive `pixcount`, then hand off to `_fast_2d_cross`. -/
def interpolate_2d_cross (n : ℕ) (target x_data y_data : Fin n → ℝ)
    (wfunc : ℝ → ℕ → ℝ) (k_rad : ℝ) (mass rho h : Fin n → ℝ)
    (x1 y1 x2 y2 : ℝ) (pixcount : ℤ) :
    Except InterpError (ℤ → ℝ) :=
  if isclose y2 y1 ∧ isclose x2 x1 then .error .degenerateGeometry
  else if pixcount ≤ 0 then .error (.invalidParameter "pixcount")
  else .ok (fun ipix => fast_2d_cross n target x_data y_data wfunc k_rad mass rho h
    x1 y1 x2 y2 pixcount ipix)

/-- `interpolate_3d`: validate the grid parameters in source order, then
hand off to `_fast_3d` with the column-kernel table for `int_samples`. -/
def interpolate_3d (n : ℕ) (target x_data y_data : Fin n → ℝ) (wfunc : ℝ → ℕ → ℝ)
    (k_rad : ℝ) (mass rho h : Fin n → ℝ)
    (pixwidthx pixwidthy xmin ymin : ℝ) (pixcountx pixcounty : ℤ)
    (int_samples : ℕ) :
    Except InterpError (ℤ → ℤ → Option ℝ) :=
  if pixwidthx ≤ 0 then .error (.invalidParameter "pixwidthx")
  else if pixwidthy ≤ 0 then .error (.invalidParameter "pixwidthy")
  else if pixcountx ≤ 0 then .error (.invalidParameter "pixcountx")
  else if pixcounty ≤ 0 then .error (.invalidParameter "pixcounty")
  else .ok (fun jpix ipix => fast_3d n target x_data y_data wfunc int_samples k_rad
    mass rho h xmin ymin pixwidthx pixwidthy pixcountx pixcounty jpix ipix)

/-- `interpolate_3d_cross`: validate the grid parameters in source order,
then hand off to `_fast_3d_cross`. -/
def interpolate_3d_cross (n : ℕ) (target x_data y_data z_data : Fin n → ℝ)
    (wfunc : ℝ → ℕ → ℝ) (zslice k_rad : ℝ) (mass rho h : Fin n → ℝ)
    (pixwidthx pixwidthy xmin ymin : ℝ) (pixcountx pixcounty : ℤ) :
    Except InterpError (ℤ → ℤ → ℝ) :=
  if pixwidthx ≤ 0 then .error (.invalidParameter "pixwidthx")
  else if pixwidthy ≤ 0 then .error (.invalidParameter "pixwidthy")
  else if pixcountx ≤ 0 then .error (.invalidParameter "pixcountx")
  else if pixcounty ≤ 0 then .error (.invalidParameter "pixcounty")
  else .ok (fun jpix ipix => fast_3d_cross n target x_data y_data z_data wfunc
    zslice k_rad mass rho h pixwidthx pixwidthy xmin ymin pixcountx pixcounty jpix ipix)

end

/-! ## Helper lemmas -/

/-- `isclose` is reflexive: a value is always within tolerance of itself. -/
theorem isclose_self (a : ℝ) : isclose a a := by
  rw [isclose, sub_self, abs_zero]
  positivity

/-- The cubic-spline weight vanishes from `q = 2` on, in every dimension. -/
theorem cubicW_zero_of_two_le (q : ℝ) (ndim : ℕ) (hq : 2 ≤ q) : cubicW q ndim = 0 := by
  rw [cubicW, if_neg (by linarith : ¬q < 1), if_neg (by linarith : ¬q < 2)]
  ring

/-! ## Claim theorems -/

/-- Claim C10: `interpolate_2d_cross` decides degeneracy with `np.isclose`
rather than exact equality: for the endpoints `(0,0)` and `(1e-9, 0)`,
which are distinct but within the default tolerance, the call fails with
the zero-length (`DegenerateGeometry`) error. -/
theorem c10_isclose_degeneracy :
    interpolate_2d_cross 0 (fun _ => 0) (fun _ => 0) (fun _ => 0) (fun _ _ => 0) 2
        (fun _ => 0) (fun _ => 0) (fun _ => 0) 0 0 (1/10^9) 0 500
      = Except.error InterpError.degenerateGeometry
    ∧ ((1/10^9 : ℝ), (0 : ℝ)) ≠ ((0 : ℝ), (0 : ℝ)) := by
  constructor
  · rw [interpolate_2d_cross, if_pos]
    constructor
    · exact isclose_self 0
    · rw [isclose, sub_zero, abs_of_nonneg (by norm_num : (0:ℝ) ≤ 1/10^9)]
      norm_num
  · intro hcontra
    rw [Prod.mk.injEq] at hcontra
    norm_num at hcontra

/-- Claim C9 (amended), counterexample to the original statement: the
vertical segment from `(0,0)` to `(0, 1e-10)` has `y2 ≠ y1`, yet
`interpolate_2d_cross` raises the zero-length error because both
coordinates are within the `np.isclose` tolerance. -/
theorem c9_counterexample :
    interpolate_2d_cross 0 (fun _ => 0) (fun _ => 0) (fun _ => 0) (fun _ _ => 0) 2
        (fun _ => 0) (fun _ => 0) (fun _ => 0) 0 0 0 (1/10^10) 500
      = Except.error InterpError.degenerateGeometry
    ∧ (1/10^10 : ℝ) ≠ 0 := by
  constructor
  · rw [interpolate_2d_cross, if_pos]
    constructor
    · rw [isclose, sub_zero, abs_of_nonneg (by norm_num : (0:ℝ) ≤ 1/10^10)]
      norm_num
    · exact isclose_self 0
  · norm_num

/-- Claim C9 (amended): for every line with `x2 = x1` whose `y` endpoints
are not within the `np.isclose` tolerance of each other (so the
degeneracy check passes), the algorithm sets `gradient = 0` — treating
the vertical segment as if it were horizontal — and, when
`pixcount > 0`, proceeds without raising an error. -/
theorem c9_vertical_line_gradient_zero (n : ℕ)
    (target x_data y_data mass rho h : Fin n → ℝ) (wfunc : ℝ → ℕ → ℝ)
    (k_rad x1 y1 y2 : ℝ) (pixcount : ℤ)
    (hy : ¬ isclose y2 y1) (hpc : 0 < pixcount) :
    lineGradient x1 y1 x1 y2 = 0 ∧
    interpolate_2d_cross n target x_data y_data wfunc k_rad mass rho h
        x1 y1 x1 y2 pixcount
      = Except.ok (fun ipix => fast_2d_cross n target x_data y_data wfunc k_rad
          mass rho h x1 y1 x1 y2 pixcount ipix) := by
  constructor
  · rw [lineGradient, if_pos (sub_self x1)]
  · rw [interpolate_2d_cross, if_neg (fun hc => hy hc.1),
      if_neg (by omega : ¬pixcount ≤ 0)]

/-- Witness for the amended C9 at a concrete vertical segment. -/
theorem c9_vertical_line_gradient_zero_witness :
    lineGradient 0 0 0 1 = 0 ∧
    interpolate_2d_cross 0 (fun _ => 0) (fun _ => 0) (fun _ => 0) (fun _ _ => 0) 2
        (fun _ => 0) (fun _ => 0) (fun _ => 0) 0 0 0 1 5
      = Except.ok (fun ipix => fast_2d_cross 0 (fun _ => 0) (fun _ => 0) (fun _ => 0)
          (fun _ _ => 0) 2 (fun _ => 0) (fun _ => 0) (fun _ => 0) 0 0 0 1 5 ipix) :=
  c9_vertical_line_gradient_zero 0 (fun _ => 0) (fun _ => 0) (fun _ => 0)
    (fun _ => 0) (fun _ => 0) (fun _ => 0) (fun _ _ => 0) 2 0 0 1 5
    (by rw [isclose]; norm_num) (by norm_num)

/-- Claim C1 (amended), counterexample to the original statement: with
coincident endpoints and `pixcount = 0` the cross-section call fails with
`DegenerateGeometry`, not `InvalidParameter`, because the degeneracy
check runs first. -/
theorem c1_counterexample :
    interpolate_2d_cross 0 (fun _ => 0) (fun _ => 0) (fun _ => 0) (fun _ _ => 0) 2
        (fun _ => 0) (fun _ => 0) (fun _ => 0) 0 0 0 0 0
      = Except.error InterpError.degenerateGeometry
    ∧ ¬ raisesInvalidParameter (interpolate_2d_cross 0 (fun _ => 0) (fun _ => 0)
        (fun _ => 0) (fun _ _ => 0) 2 (fun _ => 0) (fun _ => 0) (fun _ => 0) 0 0 0 0 0) := by
  have hres : interpolate_2d_cross 0 (fun _ => (0:ℝ)) (fun _ => 0) (fun _ => 0)
      (fun _ _ => 0) 2 (fun _ => 0) (fun _ => 0) (fun _ => 0) 0 0 0 0 0
      = Except.error InterpError.degenerateGeometry := by
    rw [interpolate_2d_cross, if_pos ⟨isclose_self 0, isclose_self 0⟩]
  refine ⟨hres, ?_⟩
  rw [hres]
  intro hcontra
  exact hcontra

/-- Claim C1 (amended): each of `interpolate_2d`, `interpolate_3d` and
`interpolate_3d_cross` fails with `InvalidParameter` when any of
`pixwidthx, pixwidthy` is `≤ 0` or either pixel count is `≤ 0`;
`interpolate_2d_cross` fails with `InvalidParameter` when `pixcount ≤ 0`
and the endpoints are not approximately coincident, and with
`DegenerateGeometry` whenever `(x1,y1) = (x2,y2)` — the degeneracy check
runs first and takes precedence when both conditions hold.  In the
embedding a failure is an `Except.error`, so no (partial) output image
exists in any failing case. -/
theorem c1_parameter_validation :
    (∀ (n : ℕ) (target x_data y_data mass rho h : Fin n → ℝ) (wfunc : ℝ → ℕ → ℝ)
        (k_rad pixwidthx pixwidthy xmin ymin : ℝ) (pixcountx pixcounty : ℤ),
        pixwidthx ≤ 0 ∨ pixwidthy ≤ 0 ∨ pixcountx ≤ 0 ∨ pixcounty ≤ 0 →
        raisesInvalidParameter (interpolate_2d n target x_data y_data wfunc k_rad
          mass rho h pixwidthx pixwidthy xmin ymin pixcountx pixcounty))
    ∧ (∀ (n : ℕ) (target x_data y_data mass rho h : Fin n → ℝ) (wfunc : ℝ → ℕ → ℝ)
        (k_rad pixwidthx pixwidthy xmin ymin : ℝ) (pixcountx pixcounty : ℤ)
        (int_samples : ℕ),
        pixwidthx ≤ 0 ∨ pixwidthy ≤ 0 ∨ pixcountx ≤ 0 ∨ pixcounty ≤ 0 →
        raisesInvalidParameter (interpolate_3d n target x_data y_data wfunc k_rad
          mass rho h pixwidthx pixwidthy xmin ymin pixcountx pixcounty int_samples))
    ∧ (∀ (n : ℕ) (target x_data y_data z_data mass rho h : Fin n → ℝ)
        (wfunc : ℝ → ℕ → ℝ) (zslice k_rad pixwidthx pixwidthy xmin ymin : ℝ)
        (pixcountx pixcounty : ℤ),
        pixwidthx ≤ 0 ∨ pixwidthy ≤ 0 ∨ pixcountx ≤ 0 ∨ pixcounty ≤ 0 →
        raisesInvalidParameter (interpolate_3d_cross n target x_data y_data z_data
          wfunc zslice k_rad mass rho h pixwidthx pixwidthy xmin ymin
          pixcountx pixcounty))
    ∧ (∀ (n : ℕ) (target x_data y_data mass rho h : Fin n → ℝ) (wfunc : ℝ → ℕ → ℝ)
        (k_rad x1 y1 x2 y2 : ℝ) (pixcount : ℤ),
        ¬(isclose y2 y1 ∧ isclose x2 x1) → pixcount ≤ 0 →
        interpolate_2d_cross n target x_data y_data wfunc k_rad mass rho h
          x1 y1 x2 y2 pixcount
          = Except.error (InterpError.invalidParameter "pixcount"))
    ∧ (∀ (n : ℕ) (target x_data y_data mass rho h : Fin n → ℝ) (wfunc : ℝ → ℕ → ℝ)
        (k_rad x1 y1 x2 y2 : ℝ) (pixcount : ℤ),
        x2 = x1 → y2 = y1 →
        interpolate_2d_cross n target x_data y_data wfunc k_rad mass rho h
          x1 y1 x2 y2 pixcount
          = Except.error InterpError.degenerateGeometry) := by
  refine ⟨?_, ?_, ?_, ?_, ?_⟩
  · intro n target x_data y_data mass rho h wfunc k_rad pwx pwy xmin ymin pcx pcy hd
    rw [interpolate_2d]
    split_ifs with h1 h2 h3 h4
    · exact trivial
    · exact trivial
    · exact trivial
    · exact trivial
    · rcases hd with hh | hh | hh | hh
      · exact absurd hh h1
      · exact absurd hh h2
      · exact absurd hh h3
      · exact absurd hh h4
  · intro n target x_data y_data mass rho h wfunc k_rad pwx pwy xmin ymin pcx pcy s hd
    rw [interpolate_3d]
    split_ifs with h1 h2 h3 h4
    · exact trivial
    · exact trivial
    · exact trivial
    · exact trivial
    · rcases hd with hh | hh | hh | hh
      · exact absurd hh h1
      · exact absurd hh h2
      · exact absurd hh h3
      · exact absurd hh h4
  · intro n target x_data y_data z_data mass rho h wfunc zslice k_rad pwx pwy
      xmin ymin pcx pcy hd
    rw [interpolate_3d_cross]
    split_ifs with h1 h2 h3 h4
    · exact trivial
    · exact trivial
    · exact trivial
    · exact trivial
    · rcases hd with hh | hh | hh | hh
      · exact absurd hh h1
      · exact absurd hh h2
      · exact absurd hh h3
      · exact absurd hh h4
  · intro n target x_data y_data mass rho h wfunc k_rad x1 y1 x2 y2 pixcount hnd hpc
    rw [interpolate_2d_cross, if_neg hnd, if_pos hpc]
  · intro n target x_data y_data mass rho h wfunc k_rad x1 y1 x2 y2 pixcount hx hy
    rw [interpolate_2d_cross, if_pos ⟨hy ▸ isclose_self y1, hx ▸ isclose_self x1⟩]

/-- Witness for the amended C1 at concrete inputs: one failing input per
entry point, plus the two cross-section failure modes. -/
theorem c1_parameter_validation_witness :
    raisesInvalidParameter (interpolate_2d 0 (fun _ => 0) (fun _ => 0) (fun _ => 0)
      (fun _ _ => 0) 2 (fun _ => 0) (fun _ => 0) (fun _ => 0) (-1) 1 0 0 10 10)
    ∧ raisesInvalidParameter (interpolate_3d 0 (fun _ => 0) (fun _ => 0) (fun _ => 0)
      (fun _ _ => 0) 2 (fun _ => 0) (fun _ => 0) (fun _ => 0) 1 1 0 0 0 10 1000)
    ∧ raisesInvalidParameter (interpolate_3d_cross 0 (fun _ => 0) (fun _ => 0)
      (fun _ => 0) (fun _ => 0) (fun _ _ => 0) 0 2 (fun _ => 0) (fun _ => 0)
      (fun _ => 0) 1 (-2) 0 0 10 10)
    ∧ interpolate_2d_cross 0 (fun _ => 0) (fun _ => 0) (fun _ => 0) (fun _ _ => 0) 2
        (fun _ => 0) (fun _ => 0) (fun _ => 0) 0 0 1 1 0
      = Except.error (InterpError.invalidParameter "pixcount")
    ∧ interpolate_2d_cross 0 (fun _ => 0) (fun _ => 0) (fun _ => 0) (fun _ _ => 0) 2
        (fun _ => 0) (fun _ => 0) (fun _ => 0) 3 4 3 4 7
      = Except.error InterpError.degenerateGeometry :=
  ⟨c1_parameter_validation.1 0 (fun _ => 0) (fun _ => 0) (fun _ => 0) (fun _ => 0)
      (fun _ => 0) (fun _ => 0) (fun _ _ => 0) 2 (-1) 1 0 0 10 10
      (Or.inl (by norm_num)),
   c1_parameter_validation.2.1 0 (fun _ => 0) (fun _ => 0) (fun _ => 0) (fun _ => 0)
      (fun _ => 0) (fun _ => 0) (fun _ _ => 0) 2 1 1 0 0 0 10 1000
      (Or.inr (Or.inr (Or.inl (by norm_num)))),
   c1_parameter_validation.2.2.1 0 (fun _ => 0) (fun _ => 0) (fun _ => 0) (fun _ => 0)
      (fun _ => 0) (fun _ => 0) (fun _ => 0) (fun _ _ => 0) 0 2 1 (-2) 0 0 10 10
      (Or.inr (Or.inl (by norm_num))),
   c1_parameter_validation.2.2.2.1 0 (fun _ => 0) (fun _ => 0) (fun _ => 0)
      (fun _ => 0) (fun _ => 0) (fun _ => 0) (fun _ _ => 0) 2 0 0 1 1 0
      (fun hc => by rw [isclose] at hc; have := hc.1; norm_num at this)
      (by norm_num),
   c1_parameter_validation.2.2.2.2 0 (fun _ => 0) (fun _ => 0) (fun _ => 0)
      (fun _ => 0) (fun _ => 0) (fun _ => 0) (fun _ _ => 0) 2 3 4 3 4 7 rfl rfl⟩

/-- Claim C7: inside a particle's pixel box, `_fast_3d_cross` scales the
kernel value by `target*mass/(rho*h^3)` (cube of the smoothing length),
whereas `_fast_2d` and `_fast_3d` both scale by `target*mass/(rho*h^2)`
(square of the smoothing length). -/
theorem c7_term_coefficients
    (target x_data y_data z_data mass rho h : ℝ) (wfunc : ℝ → ℕ → ℝ)
    (int_samples : ℕ) (zslice k_rad xmin ymin pixwidthx pixwidthy : ℝ)
    (pixcountx pixcounty jpix ipix : ℤ)
    (hxr : inPixRange k_rad h x_data xmin pixwidthx pixcountx ipix)
    (hyr : inPixRange k_rad h y_data ymin pixwidthy pixcounty jpix) :
    fast_2d_contrib target x_data y_data wfunc k_rad mass rho h xmin ymin
        pixwidthx pixwidthy pixcountx pixcounty jpix ipix
      = wfunc (Real.sqrt
          ((xmin + ((ipix : ℝ) + 0.5) * pixwidthx - x_data) ^ 2 * (1 / h ^ 2)
            + (ymin + ((jpix : ℝ) + 0.5) * pixwidthy - y_data)
              * (ymin + ((jpix : ℝ) + 0.5) * pixwidthy - y_data) * (1 / h ^ 2))) 2
        * (target * mass / (rho * h ^ 2))
    ∧ fast_3d_contrib target x_data y_data wfunc int_samples k_rad mass rho h
        xmin ymin pixwidthx pixwidthy pixcountx pixcounty jpix ipix
      = (fast_3d_pixelWeight wfunc int_samples k_rad (Real.sqrt
          ((xmin + ((ipix : ℝ) + 0.5) * pixwidthx - x_data) ^ 2 * (1 / h ^ 2)
            + (ymin + ((jpix : ℝ) + 0.5) * pixwidthy - y_data)
              * (ymin + ((jpix : ℝ) + 0.5) * pixwidthy - y_data) * (1 / h ^ 2)))).map
          (fun wab => wab * (target * mass / (rho * h ^ 2)))
    ∧ (|zslice - z_data| < k_rad * h →
        fast_3d_cross_contrib target x_data y_data z_data wfunc zslice k_rad
          mass rho h pixwidthx pixwidthy xmin ymin pixcountx pixcounty jpix ipix
        = target * mass / (rho * h ^ 3) * wfunc (Real.sqrt
            ((xmin + ((ipix : ℝ) + 0.5) * pixwidthx - x_data) ^ 2 * (1 / h ^ 2)
              + (zslice - z_data) ^ 2 * (1 / h ^ 2)
              + (ymin + ((jpix : ℝ) + 0.5) * pixwidthy - y_data)
                * (ymin + ((jpix : ℝ) + 0.5) * pixwidthy - y_data) * (1 / h ^ 2))) 3) := by
  refine ⟨?_, ?_, ?_⟩
  · rw [fast_2d_contrib, if_pos ⟨hxr, hyr⟩, term2d]
  · rw [fast_3d_contrib, if_pos ⟨hxr, hyr⟩, term2d]
  · intro hz
    rw [fast_3d_cross_contrib]
    rw [if_pos hz, if_pos ⟨hxr, hyr⟩, term3dCross]

set_option maxRecDepth 8000 in
set_option maxHeartbeats 1000000 in
/-- Witness for C7 at a concrete in-range pixel. -/
theorem c7_term_coefficients_witness :
    fast_2d_contrib 1 0 0 (fun _ _ => 0) 2 1 1 1 (-(3/5)) (-(3/5)) (6/5) (6/5) 1 1 0 0
      = (fun _ _ => (0:ℝ)) (Real.sqrt
          ((-(3/5) + (((0 : ℤ) : ℝ) + 0.5) * (6/5) - 0) ^ 2 * (1 / 1 ^ 2)
            + (-(3/5) + (((0 : ℤ) : ℝ) + 0.5) * (6/5) - 0)
              * (-(3/5) + (((0 : ℤ) : ℝ) + 0.5) * (6/5) - 0) * (1 / 1 ^ 2))) 2
        * (1 * 1 / (1 * 1 ^ 2))
    ∧ fast_3d_contrib 1 0 0 (fun _ _ => 0) 1000 2 1 1 1 (-(3/5)) (-(3/5)) (6/5) (6/5) 1 1 0 0
      = (fast_3d_pixelWeight (fun _ _ => 0) 1000 2 (Real.sqrt
          ((-(3/5) + (((0 : ℤ) : ℝ) + 0.5) * (6/5) - 0) ^ 2 * (1 / 1 ^ 2)
            + (-(3/5) + (((0 : ℤ) : ℝ) + 0.5) * (6/5) - 0)
              * (-(3/5) + (((0 : ℤ) : ℝ) + 0.5) * (6/5) - 0) * (1 / 1 ^ 2)))).map
          (fun wab => wab * (1 * 1 / (1 * 1 ^ 2)))
    ∧ (|(0:ℝ) - 0| < 2 * 1 →
        fast_3d_cross_contrib 1 0 0 0 (fun _ _ => 0) 0 2 1 1 1 (6/5) (6/5)
          (-(3/5)) (-(3/5)) 1 1 0 0
        = 1 * 1 / (1 * 1 ^ 3) * (fun _ _ => (0:ℝ)) (Real.sqrt
            ((-(3/5) + (((0 : ℤ) : ℝ) + 0.5) * (6/5) - 0) ^ 2 * (1 / 1 ^ 2)
              + ((0:ℝ) - 0) ^ 2 * (1 / 1 ^ 2)
              + (-(3/5) + (((0 : ℤ) : ℝ) + 0.5) * (6/5) - 0)
                * (-(3/5) + (((0 : ℤ) : ℝ) + 0.5) * (6/5) - 0) * (1 / 1 ^ 2))) 3) := by
  have hr : inPixRange 2 1 0 (-(3/5)) (6/5) 1 0 := by
    rw [inPixRange]
    have r1 : rint (((0:ℝ) - 2 * 1 - -(3/5)) / (6/5)) = -1 := by
      rw [rint]
      norm_num [Int.fract]
    have r2 : rint (((0:ℝ) + 2 * 1 - -(3/5)) / (6/5)) = 2 := by
      rw [rint]
      norm_num [Int.fract]
    rw [r1, r2, clipIdx, clipIdx]
    norm_num
  exact c7_term_coefficients 1 0 0 0 1 1 1 (fun _ _ => 0) 1000 0 2 (-(3/5)) (-(3/5))
    (6/5) (6/5) 1 1 0 0 hr hr

/-- The `np.interp` lookup of `_fast_3d` never succeeds: the abscissa
array `np.linspace(0, k_rad, int_samples)` has `int_samples` points while
the column-kernel table has `int_samples + 1` entries, so the lookup's
equal-length precondition fails for every sample count (and for
`int_samples = 0` the abscissa array is empty). -/
theorem fast_3d_pixelWeight_eq_none (wfunc : ℝ → ℕ → ℝ) (int_samples : ℕ)
    (k_rad q : ℝ) : fast_3d_pixelWeight wfunc int_samples k_rad q = none := by
  rw [fast_3d_pixelWeight, npInterp, if_pos]
  have hfp : (columnTableList k_rad int_samples wfunc).length = int_samples + 1 := by
    rw [columnTableList, List.length_ofFn]
  rcases Nat.eq_zero_or_pos int_samples with hs | hs
  · left
    subst hs
    rw [linspace, if_neg (by norm_num)]
    simp
  · right
    rw [hfp, linspace]
    split_ifs with h1
    · rw [h1]
      simp
    · rw [List.length_map, List.length_range]
      omega

/-- Claim C2 (code bug): the per-pixel weight of `_fast_3d` is never the
claimed table interpolation — the code hands `np.interp` an abscissa
array of `int_samples` points (`np.linspace(0, k_rad, int_samples)`)
against the `int_samples + 1`-entry table `get_column_kernel(int_samples)`,
so every lookup fails its equal-length precondition and, for any particle
set with at least one particle, `_fast_3d` produces no pixel value at
all. -/
theorem c2_column_lookup_length_mismatch :
    (∀ (wfunc : ℝ → ℕ → ℝ) (int_samples : ℕ) (k_rad q : ℝ),
      fast_3d_pixelWeight wfunc int_samples k_rad q = none)
    ∧ (∀ (n : ℕ) (target x_data y_data mass rho h : Fin n → ℝ)
        (wfunc : ℝ → ℕ → ℝ) (int_samples : ℕ) (k_rad xmin ymin pixwidthx pixwidthy : ℝ)
        (pixcountx pixcounty jpix ipix : ℤ),
        1 ≤ n →
        fast_3d n target x_data y_data wfunc int_samples k_rad mass rho h
          xmin ymin pixwidthx pixwidthy pixcountx pixcounty jpix ipix = none) := by
  refine ⟨fast_3d_pixelWeight_eq_none, ?_⟩
  intro n target x_data y_data mass rho h wfunc int_samples k_rad xmin ymin
    pwx pwy pcx pcy jpix ipix hn
  rw [fast_3d, if_neg]
  intro hall
  refine hall ⟨0, hn⟩ ?_
  rw [fast_3d_contrib]
  split_ifs <;> simp [fast_3d_pixelWeight_eq_none]

/-- Witness for C2: a concrete single-particle call of `_fast_3d` with
the default `int_samples = 1000` yields no pixel value. -/
theorem c2_column_lookup_length_mismatch_witness :
    fast_3d 1 (fun _ => 1) (fun _ => 0) (fun _ => 0) (fun q _ => q) 1000 2
      (fun _ => 1) (fun _ => 1) (fun _ => 1) 0 0 1 1 10 10 0 0 = none :=
  c2_column_lookup_length_mismatch.2 1 (fun _ => 1) (fun _ => 0) (fun _ => 0)
    (fun _ => 1) (fun _ => 1) (fun _ => 1) (fun q _ => q) 1000 2 0 0 1 1 10 10 0 0
    (by norm_num)

/-- Claim C3: for every kernel weight function and `samples > 0`, the
column-kernel table has `samples + 1` entries; entry `i < samples` equals
twice the composite trapezoidal approximation — 100 evaluation points
over 99 equal sub-intervals, endpoints weighted by `1/2`, all others by
`1`, each scaled by the sub-interval width — of the integral of
`weight(sqrt(q_xy2 + q_z^2), 3)` over `q_z ∈ [0, sqrt(r^2 - q_xy2)]` at
`q_xy2 = i*r^2/samples`; and entry `samples` equals `0` exactly. -/
theorem c3_column_table_trapezoid (radius : ℝ) (wfunc : ℝ → ℕ → ℝ)
    (samples : ℕ) (hs : 0 < samples) :
    (columnTableList radius samples wfunc).length = samples + 1
    ∧ (∀ i : ℕ, i < samples + 1 →
        (columnTableList radius samples wfunc).getD i 0
          = int_func radius samples wfunc i)
    ∧ (∀ i : ℕ, i < samples →
        int_func radius samples wfunc i
          = 2 * specTrap100
              (fun q_z => wfunc
                (Real.sqrt ((i : ℝ) * radius ^ 2 / (samples : ℝ) + q_z ^ 2)) 3)
              (Real.sqrt (radius ^ 2 - (i : ℝ) * radius ^ 2 / (samples : ℝ))))
    ∧ int_func radius samples wfunc samples = 0 := by
  refine ⟨?_, ?_, ?_, ?_⟩
  · rw [columnTableList, List.length_ofFn]
  · intro i hi
    have hlen : i < (columnTableList radius samples wfunc).length := by
      rw [columnTableList, List.length_ofFn]
      exact hi
    rw [List.getD_eq_getElem (columnTableList radius samples wfunc) 0 hlen]
    simp only [columnTableList, List.getElem_ofFn]
  · intro i hi
    rw [int_func, if_pos hi, specTrap100]
    have hq : (i : ℝ) * radius ^ 2 / (samples : ℝ)
        = (i : ℝ) * (radius * radius / (samples : ℝ)) := by
      ring
    have hr : radius ^ 2 = radius * radius := by ring
    rw [hq, hr]
    dsimp only
    congr 1
    apply Finset.sum_congr rfl
    intro j hj
    have hx : ((j : ℝ) * (Real.sqrt (radius * radius
          - (i : ℝ) * (radius * radius / (samples : ℝ))) / 99)) ^ 2
        = ((j : ℝ) * (Real.sqrt (radius * radius
            - (i : ℝ) * (radius * radius / (samples : ℝ))) / 99))
          * ((j : ℝ) * (Real.sqrt (radius * radius
            - (i : ℝ) * (radius * radius / (samples : ℝ))) / 99)) := by
      ring
    rw [hx]
    split_ifs with h0
    · norm_num
    · ring
  · rw [int_func, if_neg (by omega : ¬samples < samples)]

/-- Witness for C3 with the cubic-spline weight, `samples = 5`, `i = 3`. -/
theorem c3_column_table_trapezoid_witness :
    (columnTableList 2 5 cubicW).length = 5 + 1
    ∧ (columnTableList 2 5 cubicW).getD 3 0 = int_func 2 5 cubicW 3
    ∧ int_func 2 5 cubicW 3
      = 2 * specTrap100
          (fun q_z => cubicW
            (Real.sqrt ((3 : ℕ) * (2:ℝ) ^ 2 / ((5:ℕ) : ℝ) + q_z ^ 2)) 3)
          (Real.sqrt ((2:ℝ) ^ 2 - (3 : ℕ) * (2:ℝ) ^ 2 / ((5:ℕ) : ℝ)))
    ∧ int_func 2 5 cubicW 5 = 0 := by
  obtain ⟨h1, h2, h3, h4⟩ := c3_column_table_trapezoid 2 cubicW 5 (by norm_num)
  exact ⟨h1, h2 3 (by norm_num), h3 3 (by norm_num), h4⟩

/-- Normalizing a squared distance of at least `2h` by `h` gives a
normalized distance of at least `2` (shape of `_fast_2d`/`_fast_3d`). -/
theorem two_le_sqrt_norm2 (dxx dyy h : ℝ) (hh : 0 < h)
    (hd : 2 * h ≤ Real.sqrt (dxx ^ 2 + dyy ^ 2)) :
    2 ≤ Real.sqrt (dxx ^ 2 * (1 / h ^ 2) + dyy * dyy * (1 / h ^ 2)) := by
  have hq : dxx ^ 2 * (1 / h ^ 2) + dyy * dyy * (1 / h ^ 2)
      = (dxx ^ 2 + dyy ^ 2) / h ^ 2 := by
    ring
  rw [hq, Real.sqrt_div' (dxx ^ 2 + dyy ^ 2) (by positivity),
    Real.sqrt_sq hh.le, le_div_iff₀ hh]
  linarith

/-- Same as `two_le_sqrt_norm2` for the `_fast_3d_cross` shape, which adds
the normalized squared slice distance. -/
theorem two_le_sqrt_norm3 (dxx dzz dyy h : ℝ) (hh : 0 < h)
    (hd : 2 * h ≤ Real.sqrt (dxx ^ 2 + dyy ^ 2 + dzz ^ 2)) :
    2 ≤ Real.sqrt (dxx ^ 2 * (1 / h ^ 2) + dzz ^ 2 * (1 / h ^ 2)
      + dyy * dyy * (1 / h ^ 2)) := by
  have hq : dxx ^ 2 * (1 / h ^ 2) + dzz ^ 2 * (1 / h ^ 2) + dyy * dyy * (1 / h ^ 2)
      = (dxx ^ 2 + dyy ^ 2 + dzz ^ 2) / h ^ 2 := by
    ring
  rw [hq, Real.sqrt_div' (dxx ^ 2 + dyy ^ 2 + dzz ^ 2) (by positivity),
    Real.sqrt_sq hh.le, le_div_iff₀ hh]
  linarith

/-- Same as `two_le_sqrt_norm2` for the `_fast_2d_cross` shape, which
multiplies the squared distance by `1 / (h * h)`. -/
theorem two_le_sqrt_norm_cross (dxx dyy h : ℝ) (hh : 0 < h)
    (hd : 2 * h ≤ Real.sqrt (dxx ^ 2 + dyy ^ 2)) :
    2 ≤ Real.sqrt ((dxx * dxx + dyy * dyy) * (1 / (h * h))) := by
  have hq : (dxx * dxx + dyy * dyy) * (1 / (h * h))
      = (dxx ^ 2 + dyy ^ 2) / h ^ 2 := by
    ring
  rw [hq, Real.sqrt_div' (dxx ^ 2 + dyy ^ 2) (by positivity),
    Real.sqrt_sq hh.le, le_div_iff₀ hh]
  linarith

/-- Claim C4: the cubic-spline weight is exactly `0` for every `q ≥ 2`
and `dim ∈ {1,2,3}`; consequently, in each kernel-evaluating projector
(`_fast_2d`, `_fast_2d_cross`, `_fast_3d_cross` with `k_rad = 2`), a
particle with smoothing length `h > 0` contributes exactly `0` to any
pixel whose center lies at distance at least `2·h` from the particle. -/
theorem c4_compact_support :
    (∀ (q : ℝ) (ndim : ℕ), 2 ≤ q → ndim ∈ ({1, 2, 3} : Set ℕ) → cubicW q ndim = 0)
    ∧ (∀ (target x_data y_data mass rho h xmin ymin pixwidthx pixwidthy : ℝ)
        (pixcountx pixcounty jpix ipix : ℤ),
        0 < h →
        2 * h ≤ Real.sqrt ((xmin + ((ipix : ℝ) + 0.5) * pixwidthx - x_data) ^ 2
          + (ymin + ((jpix : ℝ) + 0.5) * pixwidthy - y_data) ^ 2) →
        fast_2d_contrib target x_data y_data cubicW 2 mass rho h xmin ymin
          pixwidthx pixwidthy pixcountx pixcounty jpix ipix = 0)
    ∧ (∀ (target x_data y_data mass rho h x1 y1 x2 y2 : ℝ) (pixcount ipix : ℤ),
        0 < h →
        2 * h ≤ Real.sqrt
          ((x1 + ((ipix : ℝ) + 0.5) * ((x2 - x1) / (pixcount : ℝ)) - x_data) ^ 2
            + (lineGradient x1 y1 x2 y2
                  * (x1 + ((ipix : ℝ) + 0.5) * ((x2 - x1) / (pixcount : ℝ)))
                + (y2 - lineGradient x1 y1 x2 y2 * x2) - y_data) ^ 2) →
        fast_2d_cross_contrib target x_data y_data cubicW 2 mass rho h
          x1 y1 x2 y2 pixcount ipix = 0)
    ∧ (∀ (target x_data y_data z_data mass rho h zslice xmin ymin
          pixwidthx pixwidthy : ℝ) (pixcountx pixcounty jpix ipix : ℤ),
        0 < h →
        2 * h ≤ Real.sqrt ((xmin + ((ipix : ℝ) + 0.5) * pixwidthx - x_data) ^ 2
          + (ymin + ((jpix : ℝ) + 0.5) * pixwidthy - y_data) ^ 2
          + (zslice - z_data) ^ 2) →
        fast_3d_cross_contrib target x_data y_data z_data cubicW zslice 2
          mass rho h pixwidthx pixwidthy xmin ymin pixcountx pixcounty
          jpix ipix = 0) := by
  refine ⟨?_, ?_, ?_, ?_⟩
  · intro q ndim hq _
    exact cubicW_zero_of_two_le q ndim hq
  · intro target x_data y_data mass rho h xmin ymin pwx pwy pcx pcy jpix ipix hh hd
    rw [fast_2d_contrib]
    split_ifs with hin
    · dsimp only
      exact mul_eq_zero_of_left
        (cubicW_zero_of_two_le _ 2 (two_le_sqrt_norm2 _ _ h hh hd)) _
    · rfl
  · intro target x_data y_data mass rho h x1 y1 x2 y2 pixcount ipix hh hd
    rw [fast_2d_cross_contrib]
    dsimp only
    split_ifs with hdet hin
    · rfl
    · exact mul_eq_zero_of_left
        (cubicW_zero_of_two_le _ 2 (two_le_sqrt_norm_cross _ _ h hh hd)) _
    · rfl
  · intro target x_data y_data z_data mass rho h zslice xmin ymin pwx pwy
      pcx pcy jpix ipix hh hd
    rw [fast_3d_cross_contrib]
    dsimp only
    split_ifs with hdz hin
    · exact mul_eq_zero_of_right _
        (cubicW_zero_of_two_le _ 3 (two_le_sqrt_norm3 _ _ _ h hh hd))
    · rfl
    · rfl

/-- Witness for C4 at concrete inputs: a far-away particle contributes
`0` in each kernel-evaluating projector, and the weight itself vanishes
at `q = 3`. -/
theorem c4_compact_support_witness :
    cubicW 3 2 = 0
    ∧ fast_2d_contrib 1 2 (5/2) cubicW 2 1 1 1 0 0 1 1 5 5 0 0 = 0
    ∧ fast_2d_cross_contrib 1 2 2 cubicW 2 1 1 1 0 0 4 0 4 0 = 0
    ∧ fast_3d_cross_contrib 1 0 0 0 cubicW 2 2 1 1 1 1 1 (-(1/2)) (-(1/2)) 1 1 0 0 = 0 := by
  obtain ⟨h1, h2, h3, h4⟩ := c4_compact_support
  refine ⟨h1 3 2 (by norm_num) (by simp), ?_, ?_, ?_⟩
  · refine h2 1 2 (5/2) 1 1 1 0 0 1 1 5 5 0 0 (by norm_num) ?_
    rw [show ((0:ℝ) + (((0:ℤ) : ℝ) + 0.5) * 1 - 2) ^ 2
        + ((0:ℝ) + (((0:ℤ) : ℝ) + 0.5) * 1 - 5/2) ^ 2 = (5/2 : ℝ) ^ 2 by norm_num,
      Real.sqrt_sq (by norm_num : (0:ℝ) ≤ 5/2)]
    norm_num
  · refine h3 1 2 2 1 1 1 0 0 4 0 4 0 (by norm_num) ?_
    rw [show ((0:ℝ) + (((0:ℤ) : ℝ) + 0.5) * ((4 - 0) / ((4:ℤ) : ℝ)) - 2) ^ 2
        + (lineGradient 0 0 4 0 * (0 + (((0:ℤ) : ℝ) + 0.5) * ((4 - 0) / ((4:ℤ) : ℝ)))
            + (0 - lineGradient 0 0 4 0 * 4) - 2) ^ 2 = (5/2 : ℝ) ^ 2 by
      rw [lineGradient, if_neg (by norm_num : ¬(4:ℝ) - 0 = 0)]
      norm_num,
      Real.sqrt_sq (by norm_num : (0:ℝ) ≤ 5/2)]
    norm_num
  · refine h4 1 0 0 0 1 1 1 2 (-(1/2)) (-(1/2)) 1 1 1 1 0 0 (by norm_num) ?_
    rw [show ((-(1/2):ℝ) + (((0:ℤ) : ℝ) + 0.5) * 1 - 0) ^ 2
        + ((-(1/2):ℝ) + (((0:ℤ) : ℝ) + 0.5) * 1 - 0) ^ 2
        + ((2:ℝ) - 0) ^ 2 = (2 : ℝ) ^ 2 by norm_num,
      Real.sqrt_sq (by norm_num : (0:ℝ) ≤ 2)]
    norm_num

/-- Claim C8: `_fast_2d_cross` finds the line/support-circle intersection
through the quadratic `aa*x^2 + bb*x + cc = 0` with
`aa = 1 + gradient^2`, `bb = 2*gradient*(yint - pos_b) - 2*pos_a`,
`cc = pos_a^2 + pos_b^2 - 2*yint*pos_b + yint^2 - (k_rad*h)^2`; a
particle whose discriminant `bb^2 - 4*aa*cc` is negative contributes
nothing to any output pixel, and removing it leaves the whole output
unchanged — no error is raised (the embedding is a total function). -/
theorem c8_negative_discriminant (n : ℕ)
    (target x_data y_data mass rho h : Fin (n + 1) → ℝ) (wfunc : ℝ → ℕ → ℝ)
    (k_rad x1 y1 x2 y2 : ℝ) (pixcount : ℤ)
    (hdet :
      (2 * lineGradient x1 y1 x2 y2
          * ((y2 - lineGradient x1 y1 x2 y2 * x2) - y_data (Fin.last n))
        - 2 * x_data (Fin.last n)) ^ 2
      - 4 * (1 + lineGradient x1 y1 x2 y2 ^ 2)
        * (x_data (Fin.last n) ^ 2 + y_data (Fin.last n) ^ 2
          - 2 * (y2 - lineGradient x1 y1 x2 y2 * x2) * y_data (Fin.last n)
          + (y2 - lineGradient x1 y1 x2 y2 * x2) ^ 2
          - (k_rad * h (Fin.last n)) ^ 2) < 0) :
    ∀ ipix : ℤ,
      fast_2d_cross_contrib (target (Fin.last n)) (x_data (Fin.last n))
          (y_data (Fin.last n)) wfunc k_rad (mass (Fin.last n))
          (rho (Fin.last n)) (h (Fin.last n)) x1 y1 x2 y2 pixcount ipix = 0
      ∧ fast_2d_cross (n + 1) target x_data y_data wfunc k_rad mass rho h
          x1 y1 x2 y2 pixcount ipix
        = fast_2d_cross n (target ∘ Fin.castSucc) (x_data ∘ Fin.castSucc)
            (y_data ∘ Fin.castSucc) wfunc k_rad (mass ∘ Fin.castSucc)
            (rho ∘ Fin.castSucc) (h ∘ Fin.castSucc) x1 y1 x2 y2 pixcount ipix := by
  intro ipix
  have hzero : fast_2d_cross_contrib (target (Fin.last n)) (x_data (Fin.last n))
      (y_data (Fin.last n)) wfunc k_rad (mass (Fin.last n)) (rho (Fin.last n))
      (h (Fin.last n)) x1 y1 x2 y2 pixcount ipix = 0 := by
    rw [fast_2d_cross_contrib]
    dsimp only
    rw [if_pos hdet]
  refine ⟨hzero, ?_⟩
  rw [fast_2d_cross, fast_2d_cross, Fin.sum_univ_castSucc]
  simp only [Function.comp]
  rw [hzero, add_zero]

/-- Witness for C8: a particle far off the line `(0,0)`–`(1,0)` has a
negative discriminant and leaves the (empty-base) output unchanged. -/
theorem c8_negative_discriminant_witness :
    fast_2d_cross_contrib 1 0 10 (fun _ _ => 1) 2 1 1 1 0 0 1 0 8 0 = 0
    ∧ fast_2d_cross 1 (fun _ => 1) (fun _ => 0) (fun _ => 10) (fun _ _ => 1) 2
        (fun _ => 1) (fun _ => 1) (fun _ => 1) 0 0 1 0 8 0
      = fast_2d_cross 0 ((fun _ => 1) ∘ Fin.castSucc) ((fun _ => 0) ∘ Fin.castSucc)
          ((fun _ => 10) ∘ Fin.castSucc) (fun _ _ => 1) 2
          ((fun _ => 1) ∘ Fin.castSucc) ((fun _ => 1) ∘ Fin.castSucc)
          ((fun _ => 1) ∘ Fin.castSucc) 0 0 1 0 8 0 :=
  c8_negative_discriminant 0 (fun _ => 1) (fun _ => 0) (fun _ => 10) (fun _ => 1)
    (fun _ => 1) (fun _ => 1) (fun _ _ => 1) 2 0 0 1 0 8
    (by rw [lineGradient, if_neg (by norm_num : ¬(1:ℝ) - 0 = 0)]; norm_num) 0

/-- Claim C6: in `_fast_3d_cross`, a particle with
`|zslice - z| ≥ k_rad * h` is masked out before accumulation — it
contributes nothing to any pixel, and removing it leaves the whole image
unchanged; and at a concrete input a particle with
`|zslice - z| = 2*h - ε` (here `ε = 1/1000`, cubic kernel, `h = 1`)
produces a nonzero value in a pixel of the output. -/
theorem c6_slice_filter :
    (∀ (n : ℕ) (target x_data y_data z_data mass rho h : Fin (n + 1) → ℝ)
        (wfunc : ℝ → ℕ → ℝ) (zslice k_rad pixwidthx pixwidthy xmin ymin : ℝ)
        (pixcountx pixcounty : ℤ),
        k_rad * h (Fin.last n) ≤ |zslice - z_data (Fin.last n)| →
        ∀ jpix ipix : ℤ,
          fast_3d_cross_contrib (target (Fin.last n)) (x_data (Fin.last n))
              (y_data (Fin.last n)) (z_data (Fin.last n)) wfunc zslice k_rad
              (mass (Fin.last n)) (rho (Fin.last n)) (h (Fin.last n))
              pixwidthx pixwidthy xmin ymin pixcountx pixcounty jpix ipix = 0
          ∧ fast_3d_cross (n + 1) target x_data y_data z_data wfunc zslice k_rad
              mass rho h pixwidthx pixwidthy xmin ymin pixcountx pixcounty jpix ipix
            = fast_3d_cross n (target ∘ Fin.castSucc) (x_data ∘ Fin.castSucc)
                (y_data ∘ Fin.castSucc) (z_data ∘ Fin.castSucc) wfunc zslice k_rad
                (mass ∘ Fin.castSucc) (rho ∘ Fin.castSucc) (h ∘ Fin.castSucc)
                pixwidthx pixwidthy xmin ymin pixcountx pixcounty jpix ipix)
    ∧ ((0:ℝ) < 1/1000
        ∧ |(1999/1000 : ℝ) - 0| = 2 * 1 - 1/1000
        ∧ fast_3d_cross 1 (fun _ => 1) (fun _ => 0) (fun _ => 0) (fun _ => 0)
            cubicW (1999/1000) 2 (fun _ => 1) (fun _ => 1) (fun _ => 1)
            (6/5) (6/5) (-(3/5)) (-(3/5)) 1 1 0 0 ≠ 0) := by
  constructor
  · intro n target x_data y_data z_data mass rho h wfunc zslice k_rad
      pwx pwy xmin ymin pcx pcy hz jpix ipix
    have hzero : fast_3d_cross_contrib (target (Fin.last n)) (x_data (Fin.last n))
        (y_data (Fin.last n)) (z_data (Fin.last n)) wfunc zslice k_rad
        (mass (Fin.last n)) (rho (Fin.last n)) (h (Fin.last n))
        pwx pwy xmin ymin pcx pcy jpix ipix = 0 := by
      rw [fast_3d_cross_contrib]
      dsimp only
      rw [if_neg (not_lt.mpr hz)]
    refine ⟨hzero, ?_⟩
    rw [fast_3d_cross, fast_3d_cross, Fin.sum_univ_castSucc]
    simp only [Function.comp]
    rw [hzero, add_zero]
  · refine ⟨by norm_num, ?_, ?_⟩
    · rw [sub_zero, abs_of_nonneg (by norm_num : (0:ℝ) ≤ 1999/1000)]
      norm_num
    · rw [fast_3d_cross, Fin.sum_univ_one, fast_3d_cross_contrib]
      have hr : inPixRange 2 1 0 (-(3/5)) (6/5) 1 0 := by
        rw [inPixRange]
        have r1 : rint (((0:ℝ) - 2 * 1 - -(3/5)) / (6/5)) = -1 := by
          rw [rint]
          norm_num [Int.fract]
        have r2 : rint (((0:ℝ) + 2 * 1 - -(3/5)) / (6/5)) = 2 := by
          rw [rint]
          norm_num [Int.fract]
        rw [r1, r2, clipIdx, clipIdx]
        norm_num
      rw [if_pos (show |(1999/1000 : ℝ) - 0| < 2 * 1 by
          rw [sub_zero, abs_of_nonneg (by norm_num : (0:ℝ) ≤ 1999/1000)]
          norm_num), if_pos ⟨hr, hr⟩]
      dsimp only
      have hq2 : ((-(3/5) : ℝ) + (((0:ℤ) : ℝ) + 0.5) * (6/5) - 0) ^ 2 * (1 / (1:ℝ) ^ 2)
          + ((1999/1000 : ℝ) - 0) ^ 2 * (1 / (1:ℝ) ^ 2)
          + ((-(3/5) : ℝ) + (((0:ℤ) : ℝ) + 0.5) * (6/5) - 0)
            * ((-(3/5) : ℝ) + (((0:ℤ) : ℝ) + 0.5) * (6/5) - 0) * (1 / (1:ℝ) ^ 2)
          = (1999/1000 : ℝ) ^ 2 := by
        norm_num
      rw [hq2, Real.sqrt_sq (by norm_num : (0:ℝ) ≤ 1999/1000)]
      rw [cubicW, term3dCross]
      rw [if_neg (by norm_num : ¬(3 = 1)), if_neg (by norm_num : ¬(3 = 2))]
      rw [if_pos (by norm_num : (0:ℝ) ≤ 1999/1000),
        if_neg (by norm_num : ¬(1999/1000 : ℝ) < 1),
        if_pos (by norm_num : (1:ℝ) ≤ 1999/1000),
        if_pos (by norm_num : (1999/1000:ℝ) < 2)]
      have hpi : 0 < Real.pi := Real.pi_pos
      rw [show (1:ℝ) * 1 / (1 * 1 ^ 3) = 1 by norm_num, one_mul]
      intro hcontra
      rw [mul_eq_zero] at hcontra
      rcases hcontra with hc | hc
      · rw [div_eq_zero_iff] at hc
        rcases hc with hc | hc
        · norm_num at hc
        · exact absurd hc (ne_of_gt hpi)
      · norm_num at hc

/-- Witness for C6 at a concrete filtered-out particle (`|dz| = 5 ≥ 2`). -/
theorem c6_slice_filter_witness :
    fast_3d_cross_contrib 1 0 0 5 cubicW 0 2 1 1 1 1 1 0 0 4 4 0 0 = 0
    ∧ fast_3d_cross 1 (fun _ => 1) (fun _ => 0) (fun _ => 0) (fun _ => 5)
        cubicW 0 2 (fun _ => 1) (fun _ => 1) (fun _ => 1) 1 1 0 0 4 4 0 0
      = fast_3d_cross 0 ((fun _ => 1) ∘ Fin.castSucc) ((fun _ => 0) ∘ Fin.castSucc)
          ((fun _ => 0) ∘ Fin.castSucc) ((fun _ => 5) ∘ Fin.castSucc) cubicW 0 2
          ((fun _ => 1) ∘ Fin.castSucc) ((fun _ => 1) ∘ Fin.castSucc)
          ((fun _ => 1) ∘ Fin.castSucc) 1 1 0 0 4 4 0 0 :=
  c6_slice_filter.1 0 (fun _ => 1) (fun _ => 0) (fun _ => 0) (fun _ => 5)
    (fun _ => 1) (fun _ => 1) (fun _ => 1) cubicW 0 2 1 1 0 0 4 4
    (by
      show (2:ℝ) * 1 ≤ |(0:ℝ) - 5|
      rw [show (0:ℝ) - 5 = -5 by norm_num, abs_of_nonpos (by norm_num : (-5:ℝ) ≤ 0)]
      norm_num) 0 0

/-- Claim C5: each output pixel is, by construction, the sum over all
particles of that particle's contribution, and applying one permutation
to all per-particle input arrays leaves the output of every projector
unchanged (real-number addition is commutative, so the processing order
of particles is immaterial). -/
theorem c5_order_independence (n : ℕ) (σ : Equiv.Perm (Fin n))
    (target x_data y_data z_data mass rho h : Fin n → ℝ) (wfunc : ℝ → ℕ → ℝ)
    (int_samples : ℕ) (zslice k_rad x1 y1 x2 y2 xmin ymin pixwidthx pixwidthy : ℝ)
    (pixcountx pixcounty pixcount jpix ipix : ℤ) :
    fast_2d n target x_data y_data wfunc k_rad mass rho h xmin ymin
        pixwidthx pixwidthy pixcountx pixcounty jpix ipix
      = ∑ i, fast_2d_contrib (target i) (x_data i) (y_data i) wfunc k_rad
          (mass i) (rho i) (h i) xmin ymin pixwidthx pixwidthy
          pixcountx pixcounty jpix ipix
    ∧ fast_2d n (target ∘ σ) (x_data ∘ σ) (y_data ∘ σ) wfunc k_rad
        (mass ∘ σ) (rho ∘ σ) (h ∘ σ) xmin ymin pixwidthx pixwidthy
        pixcountx pixcounty jpix ipix
      = fast_2d n target x_data y_data wfunc k_rad mass rho h xmin ymin
          pixwidthx pixwidthy pixcountx pixcounty jpix ipix
    ∧ fast_2d_cross n (target ∘ σ) (x_data ∘ σ) (y_data ∘ σ) wfunc k_rad
        (mass ∘ σ) (rho ∘ σ) (h ∘ σ) x1 y1 x2 y2 pixcount ipix
      = fast_2d_cross n target x_data y_data wfunc k_rad mass rho h
          x1 y1 x2 y2 pixcount ipix
    ∧ fast_3d n (target ∘ σ) (x_data ∘ σ) (y_data ∘ σ) wfunc int_samples k_rad
        (mass ∘ σ) (rho ∘ σ) (h ∘ σ) xmin ymin pixwidthx pixwidthy
        pixcountx pixcounty jpix ipix
      = fast_3d n target x_data y_data wfunc int_samples k_rad mass rho h
          xmin ymin pixwidthx pixwidthy pixcountx pixcounty jpix ipix
    ∧ fast_3d_cross n (target ∘ σ) (x_data ∘ σ) (y_data ∘ σ) (z_data ∘ σ) wfunc
        zslice k_rad (mass ∘ σ) (rho ∘ σ) (h ∘ σ) pixwidthx pixwidthy xmin ymin
        pixcountx pixcounty jpix ipix
      = fast_3d_cross n target x_data y_data z_data wfunc zslice k_rad
          mass rho h pixwidthx pixwidthy xmin ymin pixcountx pixcounty jpix ipix := by
  refine ⟨rfl, ?_, ?_, ?_, ?_⟩
  · rw [fast_2d, fast_2d]
    simp only [Function.comp]
    exact Equiv.sum_comp σ (fun i => fast_2d_contrib (target i) (x_data i) (y_data i)
      wfunc k_rad (mass i) (rho i) (h i) xmin ymin pixwidthx pixwidthy
      pixcountx pixcounty jpix ipix)
  · rw [fast_2d_cross, fast_2d_cross]
    simp only [Function.comp]
    exact Equiv.sum_comp σ (fun i => fast_2d_cross_contrib (target i) (x_data i)
      (y_data i) wfunc k_rad (mass i) (rho i) (h i) x1 y1 x2 y2 pixcount ipix)
  · rw [fast_3d, fast_3d]
    simp only [Function.comp]
    have hiff : (∀ i : Fin n, fast_3d_contrib (target (σ i)) (x_data (σ i))
        (y_data (σ i)) wfunc int_samples k_rad (mass (σ i)) (rho (σ i)) (h (σ i))
        xmin ymin pixwidthx pixwidthy pixcountx pixcounty jpix ipix ≠ none)
        ↔ (∀ i : Fin n, fast_3d_contrib (target i) (x_data i) (y_data i) wfunc
            int_samples k_rad (mass i) (rho i) (h i) xmin ymin pixwidthx pixwidthy
            pixcountx pixcounty jpix ipix ≠ none) :=
      ⟨fun H j => by simpa using H (σ.symm j), fun H i => H (σ i)⟩
    have hsum : (∑ i, (fast_3d_contrib (target (σ i)) (x_data (σ i)) (y_data (σ i))
        wfunc int_samples k_rad (mass (σ i)) (rho (σ i)) (h (σ i)) xmin ymin
        pixwidthx pixwidthy pixcountx pixcounty jpix ipix).getD 0)
        = ∑ i, (fast_3d_contrib (target i) (x_data i) (y_data i) wfunc int_samples
            k_rad (mass i) (rho i) (h i) xmin ymin pixwidthx pixwidthy
            pixcountx pixcounty jpix ipix).getD 0 :=
      Equiv.sum_comp σ (fun i => (fast_3d_contrib (target i) (x_data i) (y_data i)
        wfunc int_samples k_rad (mass i) (rho i) (h i) xmin ymin pixwidthx
        pixwidthy pixcountx pixcounty jpix ipix).getD 0)
    exact if_congr hiff (by rw [hsum]) rfl
  · rw [fast_3d_cross, fast_3d_cross]
    simp only [Function.comp]
    exact Equiv.sum_comp σ (fun i => fast_3d_cross_contrib (target i) (x_data i)
      (y_data i) (z_data i) wfunc zslice k_rad (mass i) (rho i) (h i)
      pixwidthx pixwidthy xmin ymin pixcountx pixcounty jpix ipix)

end Sarracen
